import Mathlib

/-!
# Verification of the AstraGuard adaptive admission-controlled request scheduler

Shallow embedding of the client-side request scheduler implemented in
`src/frontend/as_lp/lib/intelligent-api-client.ts` (class IntelligentApiClient)
and of its per-call wrapper `src/frontend/as_lp/lib/use-intelligent-api.ts`
(function useIntelligentApi / executeRequest), together with theorems settling
the frozen claims about that code.

Conventions of the embedding:
* Times are epoch milliseconds.  Where JavaScript arithmetic can produce NaN
  (for example `parseInt` on a non-numeric string), the embedding uses
  `Option`, `none` standing for NaN.
* JavaScript numbers that only ever hold the health fields and the capacity
  multipliers (1, 0.5, 0.2) are modelled as rationals; at the literal operands
  occurring in the source (60 and 5 times 1, 0.5, 0.2) double rounding and
  exact rational arithmetic give the same floor, so the model is faithful.
* The two JavaScript `Map`s of the rate limiter are modelled as association
  lists with insertion-order-independent lookup.
-/

/-! ## Health snapshots (intelligent-api-client.ts, lines 24-30, 72-112) -/

/-- The three health levels of the SystemHealth interface. -/
inductive HealthStatus where
  | healthy
  | degraded
  | critical
deriving DecidableEq, Repr

/-- The SystemHealth record built by updateSystemHealth. -/
structure SystemHealth where
  cpuUsage : Rat
  memoryUsage : Rat
  activeConnections : Rat
  anomalyScore : Rat
  status : HealthStatus
deriving DecidableEq, Repr

/-- The JSON body returned by the health endpoint: snake_case optional numeric
fields; a missing field is `none` (JavaScript reads it as undefined, and the
source coalesces it to 0 with the or-operator). -/
structure HealthBody where
  cpu_usage : Option Rat
  memory_usage : Option Rat
  active_connections : Option Rat
  anomaly_score : Option Rat
deriving DecidableEq, Repr

/-- Outcome of one health fetch: a thrown error (network failure or a body
that fails to parse, both land in the catch block), or a response carrying
its ok-flag (`response.ok`, true exactly for 2xx) and body. -/
inductive FetchResult where
  | networkError
  | response (ok : Bool) (body : HealthBody)

/-- The RateLimitConfig record (intelligent-api-client.ts, lines 16-22). -/
structure RateLimitConfig where
  maxRequestsPerMinute : Nat
  maxConcurrentRequests : Nat
  backoffMultiplier : Nat
  maxBackoffTime : Nat
  healthCheckInterval : Nat
deriving DecidableEq, Repr

/-- Construction-time defaults (intelligent-api-client.ts, lines 50-57). -/
def defaultRateLimitConfig : RateLimitConfig :=
  { maxRequestsPerMinute := 60
    maxConcurrentRequests := 5
    backoffMultiplier := 2
    maxBackoffTime := 30000
    healthCheckInterval := 10000 }

/-- `x || 0` applied to an optional numeric JSON field. -/
def orZero (x : Option Rat) : Rat := x.getD 0

/-- determineHealthStatus (lines 101-112): thresholds evaluated on the raw
body fields, first match wins. -/
def determineHealthStatus (b : HealthBody) : HealthStatus :=
  let cpuUsage := orZero b.cpu_usage
  let memoryUsage := orZero b.memory_usage
  let anomalyScore := orZero b.anomaly_score
  if cpuUsage > 90 ∨ memoryUsage > 90 ∨ anomalyScore > 8/10 then
    HealthStatus.critical
  else if cpuUsage > 70 ∨ memoryUsage > 70 ∨ anomalyScore > 5/10 then
    HealthStatus.degraded
  else
    HealthStatus.healthy

/-- The capacity multiplier of adjustRateLimits (lines 118-130). -/
def capacityMultiplier : HealthStatus → Rat
  | HealthStatus.healthy => 1
  | HealthStatus.degraded => 1/2
  | HealthStatus.critical => 1/5

/-- adjustRateLimits (lines 114-139): early return when no snapshot is
stored; otherwise overwrite the two caps with `Math.floor(60 * multiplier)`
and `Math.floor(5 * multiplier)` - the source uses the literals 60 and 5,
not the configured base values. -/
def adjustRateLimits (cfg : RateLimitConfig) (h : Option SystemHealth) :
    RateLimitConfig :=
  match h with
  | none => cfg
  | some s =>
    let m := capacityMultiplier s.status
    { cfg with
        maxRequestsPerMinute := (Rat.floor (60 * m)).toNat
        maxConcurrentRequests := (Rat.floor (5 * m)).toNat }

/-- The snapshot synthesized in the catch block of updateSystemHealth
(lines 90-97). -/
def degradedFallback : SystemHealth :=
  { cpuUsage := 80
    memoryUsage := 80
    activeConnections := 100
    anomalyScore := 7/10
    status := HealthStatus.degraded }

/-- The part of the client state that the health poller touches. -/
structure HealthClientState where
  config : RateLimitConfig
  systemHealth : Option SystemHealth
deriving DecidableEq, Repr

/-- updateSystemHealth (lines 72-99): on a 2xx response, build the snapshot
with zero-defaults, store it, then adjust the rate limits; on a non-2xx
response the `if (response.ok)` has no else-branch, so nothing changes; a
thrown error lands in the catch block, which stores the degraded fallback
snapshot and does not adjust the limits. -/
def updateSystemHealth (r : FetchResult) (s : HealthClientState) :
    HealthClientState :=
  match r with
  | FetchResult.networkError => { s with systemHealth := some degradedFallback }
  | FetchResult.response ok body =>
    if ok then
      let snap : SystemHealth :=
        { cpuUsage := orZero body.cpu_usage
          memoryUsage := orZero body.memory_usage
          activeConnections := orZero body.active_connections
          anomalyScore := orZero body.anomaly_score
          status := determineHealthStatus body }
      { config := adjustRateLimits s.config (some snap)
        systemHealth := some snap }
    else
      s

/-- getSystemHealth (lines 296-298). -/
def getSystemHealth (s : HealthClientState) : Option SystemHealth :=
  s.systemHealth

/-- Client state right after the constructor ran (line 45: `systemHealth`
starts as null; the constructor only stores the config and starts the
interval timer, it issues no immediate fetch). -/
def initHealthClientState (cfg : RateLimitConfig) : HealthClientState :=
  { config := cfg, systemHealth := none }

/-- Number of interval-timer ticks that have fired within `t` milliseconds
of construction: setInterval (lines 62-70) first fires one full
healthCheckInterval after construction, then every interval. -/
def pollTicksBy (cfg : RateLimitConfig) (t : Nat) : Nat :=
  t / cfg.healthCheckInterval

/-- Run the first `n` health polls, the k-th poll returning `results k`. -/
def runPolls (results : Nat → FetchResult) :
    Nat → HealthClientState → HealthClientState
  | 0, s => s
  | Nat.succ n, s => runPolls results n (updateSystemHealth (results n) s)

/-- The health client state observed `t` milliseconds after construction,
given the outcomes of the successive polls. -/
def healthStateAt (cfg : RateLimitConfig) (results : Nat → FetchResult)
    (t : Nat) : HealthClientState :=
  runPolls results (pollTicksBy cfg t) (initHealthClientState cfg)

/-! ## String helpers: models of the JavaScript string operations used -/

/-- Whether `pat` is an initial segment of `hay` (character lists). -/
def listStartsWith : List Char → List Char → Bool
  | [], _ => true
  | _ :: _, [] => false
  | p :: ps, h :: hs => p == h && listStartsWith ps hs

/-- Whether `pat` occurs contiguously inside `hay` (character lists). -/
def listContainsSub (pat : List Char) : List Char → Bool
  | [] => pat.isEmpty
  | h :: hs => listStartsWith pat (h :: hs) || listContainsSub pat hs

/-- Model of JavaScript case-sensitive `hay.includes(pat)`. -/
def strIncludes (hay pat : String) : Bool :=
  listContainsSub pat.data hay.data

/-- Model of `endpoint.startsWith(pat)`. -/
def strStartsWith (s pat : String) : Bool :=
  listStartsWith pat.data s.data

/-- Value of a decimal digit character. -/
def digitsToNat (l : List Char) : Nat :=
  l.foldl (fun acc c => acc * 10 + (c.toNat - 48)) 0

/-- Model of JavaScript `parseInt(s)` restricted to decimal input as it
occurs here: skip leading whitespace, an optional sign, then read leading
decimal digits; `none` models the NaN result when no digit follows.
(The hexadecimal 0x-prefix form of parseInt is not modelled; no claim
involves it.) -/
def parseIntJS (s : String) : Option Int :=
  let l := s.data.dropWhile
    (fun c => c == ' ' || c == '\t' || c == '\n' || c == '\r')
  let signAndRest : Int × List Char :=
    match l with
    | '-' :: r => (-1, r)
    | '+' :: r => (1, r)
    | r => (1, r)
  let ds := signAndRest.2.takeWhile Char.isDigit
  if ds.isEmpty then none
  else some (signAndRest.1 * (digitsToNat ds : Int))

/-! ## Rate limiter (intelligent-api-client.ts, lines 141-168, 209-214) -/

/-- Lookup in an association-list model of a JavaScript Map. -/
def alGet (m : List (String × Nat)) (k : String) : Option Nat :=
  (m.find? (fun p => p.1 == k)).map (fun p => p.2)

/-- `map.set(k, v)`: replace the binding if present, else append. -/
def alSet (m : List (String × Nat)) (k : String) (v : Nat) :
    List (String × Nat) :=
  match m with
  | [] => [(k, v)]
  | p :: rest => if p.1 == k then (k, v) :: rest else p :: alSet rest k v

/-- The two Maps of the limiter: per-key request counts and last-request
timestamps (lines 42-43). -/
structure LimiterState where
  requestCounts : List (String × Nat)
  lastRequestTimes : List (String × Nat)
deriving DecidableEq, Repr

/-- The empty limiter state of a fresh client. -/
def initLimiterState : LimiterState := { requestCounts := [], lastRequestTimes := [] }

/-- getRequestKey (lines 141-143): `endpoint.split('?')[0]`, the characters
before the first question mark. -/
def getRequestKey (endpoint : String) : String :=
  String.mk (endpoint.data.takeWhile (fun c => c ≠ '?'))

/-- Whether the cleanup loop of isRateLimited evicts key `k`: its last-seen
time exists and is older than `now - 60000`.  Nat subtraction truncates at
zero, which agrees with the JavaScript comparison against a negative
windowStart (never satisfied by a non-negative timestamp). -/
def evictedAt (now : Nat) (st : LimiterState) (k : String) : Bool :=
  match alGet st.lastRequestTimes k with
  | some t => t < now - 60000
  | none => false

/-- isRateLimited (lines 145-160): evict every key whose last-seen time is
older than the 60-second window from both maps, then report whether the
(post-cleanup) count for this endpoint's key reaches the current
maxRequestsPerMinute.  Returns the decision and the cleaned state. -/
def isRateLimited (cfg : RateLimitConfig) (now : Nat) (st : LimiterState)
    (endpoint : String) : Bool × LimiterState :=
  let key := getRequestKey endpoint
  let st1 : LimiterState :=
    { requestCounts := st.requestCounts.filter (fun p => !evictedAt now st p.1)
      lastRequestTimes :=
        st.lastRequestTimes.filter (fun p => !evictedAt now st p.1) }
  let currentCount := (alGet st1.requestCounts key).getD 0
  (decide (currentCount ≥ cfg.maxRequestsPerMinute), st1)

/-- recordRequest (lines 162-168): refresh the last-seen time and increment
the count for the endpoint's key. -/
def recordRequest (now : Nat) (st : LimiterState) (endpoint : String) :
    LimiterState :=
  let key := getRequestKey endpoint
  { lastRequestTimes := alSet st.lastRequestTimes key now
    requestCounts :=
      alSet st.requestCounts key ((alGet st.requestCounts key).getD 0 + 1) }

/-! ## Errors thrown by the client and classified by the hook -/

/-- A JavaScript Error as far as the code inspects it: its name and
message. -/
structure JsError where
  name : String
  message : String
deriving DecidableEq, Repr

/-- The local admission-rejection error (makeRequest, lines 210-214):
a plain Error whose name is reassigned to RateLimitError. -/
def rateLimitErrorJs : JsError :=
  { name := "RateLimitError"
    message := "Rate limit exceeded. Please try again later." }

/-- The error thrown on an HTTP 429 response (makeRequest, line 241). -/
def serverRateLimitErrorJs : JsError :=
  { name := "Error"
    message := "Server rate limit exceeded. Backing off..." }

/-- The error thrown on any other non-2xx response (makeRequest, line 245). -/
def httpStatusErrorJs (status : Nat) (statusText : String) : JsError :=
  { name := "Error"
    message := "HTTP " ++ toString status ++ ": " ++ statusText }

/-- fullUrl computation of makeRequest (line 207). -/
def fullUrlOf (baseUrl endpoint : String) : String :=
  if strStartsWith endpoint ("http") then endpoint else baseUrl ++ endpoint

/-- Outcome of the admission part of one submission: the error it rejects
with (if any), whether the network was contacted for it, and the limiter
state afterwards. -/
structure SubmitOutcome where
  err : Option JsError
  networkCalled : Bool
  limiter : LimiterState
deriving DecidableEq, Repr

/-- The admission path of makeRequest (lines 207-223) for a request that is
dispatched at time `now`: check isRateLimited on the full URL and throw
RateLimitError without touching the network when it reports true; otherwise
the executor records the request and issues the fetch.  (The backoff wait
between the check and the dispatch does not change the limiter state and is
modelled separately.) -/
def submitRequest (cfg : RateLimitConfig) (baseUrl : String) (now : Nat)
    (st : LimiterState) (endpoint : String) : SubmitOutcome :=
  let fullUrl := fullUrlOf baseUrl endpoint
  let checked := isRateLimited cfg now st fullUrl
  if checked.1 then
    { err := some rateLimitErrorJs, networkCalled := false, limiter := checked.2 }
  else
    { err := none
      networkCalled := true
      limiter := recordRequest now checked.2 fullUrl }

/-! ## Backoff controller (makeRequest, lines 233-242) -/

/-- The backoff computation performed on an HTTP 429 response:
`(retryAfter ? parseInt(retryAfter) * 1000 : 1000) * backoffMultiplier`
capped by maxBackoffTime and added to the current time.  `retryAfter` is the
Retry-After header, `none` when absent; the empty string is falsy in
JavaScript and also selects the 1000 default.  When parseInt yields NaN the
whole computation is NaN (Math.min and addition propagate it), modelled as
`none`. -/
def backoffUntilCode (cfg : RateLimitConfig) (now : Int)
    (retryAfter : Option String) : Option Int :=
  let base : Option Int :=
    match retryAfter with
    | none => some 1000
    | some s =>
      if s = "" then some 1000
      else (parseIntJS s).map (fun r => r * 1000)
  match base with
  | none => none
  | some b =>
    some (now + min (b * (cfg.backoffMultiplier : Int)) (cfg.maxBackoffTime : Int))

/-- Follows the words of claim C6: backoffUntil = now +
min(r x 1000 x backoffMultiplier, maxBackoffTime) with r the parsed
Retry-After value and r = 1 whenever the header is absent or unparseable. -/
def backoffUntilClaimed (cfg : RateLimitConfig) (now : Int)
    (retryAfter : Option String) : Int :=
  let r : Int :=
    match retryAfter with
    | none => 1
    | some s => (parseIntJS s).getD 1
  now + min (r * 1000 * (cfg.backoffMultiplier : Int)) (cfg.maxBackoffTime : Int)

/-! ## Admission queue and dispatch (intelligent-api-client.ts, lines 35-46,
179-200, 260-268) -/

/-- A queue entry as the source stores it (request closure, resolve, reject
and priority); `order` is ghost instrumentation recording the submission
sequence number, standing for the entry's identity. -/
structure QEntry where
  priority : Nat
  order : Nat
deriving DecidableEq, Repr

/-- The scheduler-visible part of the client state.  `activeRequests` and
`requestQueue` are the source fields; `inFlight` is ghost instrumentation
counting executor calls that have started and not yet settled, and
`nextOrder` is the ghost submission counter. -/
structure SchedState where
  activeRequests : Nat
  requestQueue : List QEntry
  inFlight : Nat
  nextOrder : Nat
deriving DecidableEq, Repr

/-- Scheduler state of a fresh client (lines 35-41). -/
def initSchedState : SchedState :=
  { activeRequests := 0, requestQueue := [], inFlight := 0, nextOrder := 0 }

/-- Stable insertion preserving descending priority, modelling one element
of the stable `Array.prototype.sort((a, b) => b.priority - a.priority)`
of processQueue (line 185): the inserted element goes in front of the first
entry whose priority it reaches, hence before later-inserted entries of
equal priority. -/
def insertDesc (e : QEntry) : List QEntry → List QEntry
  | [] => [e]
  | x :: xs => if x.priority ≤ e.priority then e :: x :: xs else x :: insertDesc e xs

/-- Stable sort by descending priority, the model of line 185.  ECMAScript
2019 requires Array.prototype.sort to be stable, so equal-priority entries
keep their relative order. -/
def sortByPriority : List QEntry → List QEntry
  | [] => []
  | x :: xs => insertDesc x (sortByPriority xs)

/-- The synchronous prefix of processQueue (lines 179-189): return untouched
when the queue is empty or the active count has reached the current cap;
otherwise sort the queue by descending priority, shift off the head,
increment the active count and start the head's executor (ghost inFlight).
Returns the dispatched entry, if any. -/
def processQueueStep (cap : Nat) (s : SchedState) : Option QEntry × SchedState :=
  if s.requestQueue.length = 0 ∨ cap ≤ s.activeRequests then
    (none, s)
  else
    match sortByPriority s.requestQueue with
    | [] => (none, s)
    | d :: rest =>
      (some d,
        { s with
            requestQueue := rest
            activeRequests := s.activeRequests + 1
            inFlight := s.inFlight + 1 })

/-- The queue-or-dispatch tail of makeRequest (lines 260-268) for a
submission with the given priority: when the active count has reached the
cap the entry is pushed onto the queue; otherwise the fast path runs
processQueue once and then starts this request's executor directly -
without incrementing `activeRequests` (the increment happens only inside
processQueue, which this request skipped). -/
def submitStep (cap prio : Nat) (s : SchedState) : SchedState :=
  if cap ≤ s.activeRequests then
    { s with
        requestQueue := s.requestQueue ++ [{ priority := prio, order := s.nextOrder }]
        nextOrder := s.nextOrder + 1 }
  else
    let s1 := (processQueueStep cap s).2
    { s1 with inFlight := s1.inFlight + 1, nextOrder := s1.nextOrder + 1 }

/-- `n` back-to-back submissions of priority 1 (the default, line 205). -/
def submitN (cap : Nat) : Nat → SchedState → SchedState
  | 0, s => s
  | Nat.succ n, s => submitN cap n (submitStep cap 1 s)

/-- Settlement of a fast-path request (line 267, `.then(resolve).catch(reject)`):
the executor finishes; nothing else happens - no decrement, no drain. -/
def completeFastStep (s : SchedState) : SchedState :=
  { s with inFlight := s.inFlight - 1 }

/-- Settlement of a queue-dispatched request (lines 190-199): the finally
block decrements the active count and schedules processQueue again. -/
def completeQueuedStep (cap : Nat) (s : SchedState) : SchedState :=
  (processQueueStep cap
    { s with activeRequests := s.activeRequests - 1, inFlight := s.inFlight - 1 }).2

/-- Successive dispatches obtained by repeatedly running the drain step of
processQueue (sort then shift) on a queue, with a free slot each time;
fuelled by the queue length. -/
def drainAux : Nat → List QEntry → List QEntry
  | 0, _ => []
  | Nat.succ _, [] => []
  | Nat.succ n, q =>
    match sortByPriority q with
    | [] => []
    | d :: rest => d :: drainAux n rest

/-- The order in which a queue's entries are dispatched when drained to
exhaustion. -/
def drainOrder (q : List QEntry) : List QEntry :=
  drainAux q.length q

/-- The FIFO bookkeeping invariant of the queue: whenever one entry precedes
another of the same priority, the earlier one carries the smaller submission
number.  Holds for every queue the client can build, because entries are
appended with increasing order numbers and the sort is stable. -/
def queueTieOrdered (q : List QEntry) : Prop :=
  List.Pairwise (fun a b => a.priority = b.priority → a.order < b.order) q

/-! ## Retry/notification layer (use-intelligent-api.ts, lines 97-140) -/

/-- The classification a caught error receives in executeRequest
(lines 100-116): the user-facing message, whether the failure counts as
rate limiting, and the retry base delay in seconds. -/
structure ClassifyResult where
  errorMessage : String
  isRateLimited : Bool
  retryAfter : Nat
deriving DecidableEq, Repr

/-- The error classification of executeRequest (lines 100-116), verbatim
from the source: name equal to RateLimitError; else message containing the
case-sensitive substring with capital R; else message containing HTTP;
else the generic fallback. -/
def classifyError (e : JsError) : ClassifyResult :=
  if e.name = "RateLimitError" then
    { errorMessage := "Too many requests. Please wait before trying again."
      isRateLimited := true
      retryAfter := 60 }
  else if strIncludes e.message ("Rate limit exceeded") then
    { errorMessage := "Server is busy. Please try again in a moment."
      isRateLimited := true
      retryAfter := 30 }
  else if strIncludes e.message ("HTTP") then
    { errorMessage := e.message, isRateLimited := false, retryAfter := 0 }
  else
    { errorMessage := "An unexpected error occurred"
      isRateLimited := false
      retryAfter := 0 }

/-- The auto-retry decision of executeRequest (lines 127-136): when the
classified failure is rate limiting, retryOnRateLimit is set and the attempt
counter is below maxRetries, increment the counter and schedule a
re-invocation after retryAfter x 1000 x 2 ^ (newCount - 1) milliseconds;
returns the new counter value and the delay, or `none` when no retry is
scheduled. -/
def retryDecision (retryOnRateLimit : Bool) (maxRetries retryCount : Nat)
    (c : ClassifyResult) : Option (Nat × Nat) :=
  if c.isRateLimited && retryOnRateLimit && decide (retryCount < maxRetries) then
    some (retryCount + 1, c.retryAfter * 1000 * 2 ^ retryCount)
  else
    none

/-- The response record the client resolves with (intelligent-api-client.ts,
lines 249-253). -/
structure ApiResponse (α : Type) where
  data : α
  status : Nat
  headers : List (String × String)

/-- The hook state fields executeRequest writes (use-intelligent-api.ts,
lines 11-19). -/
structure UseApiState (α : Type) where
  data : Option α
  loading : Bool
  error : Option String
  rateLimited : Bool
  retryAfter : Nat

/-- executeRequest's handling of one settled client call (lines 86-139):
on success store the data, clear error and rateLimited, and resolve with the
data; on any failure classify it, surface it through the state fields, and
resolve with null (the catch block returns null, so the promise never
rejects). -/
def executeRequestStep {α : Type} (outcome : Except JsError (ApiResponse α))
    (prev : UseApiState α) : Option α × UseApiState α :=
  match outcome with
  | Except.ok r =>
    (some r.data,
      { prev with
          data := some r.data, loading := false, error := none, rateLimited := false })
  | Except.error e =>
    let c := classifyError e
    (none,
      { prev with
          loading := false
          error := some c.errorMessage
          rateLimited := c.isRateLimited
          retryAfter := c.retryAfter })

/-! ## Claim-side definitions and concrete fixtures -/

/-- Effective limits as claim C3 words them: floors of the
construction-time base values scaled by the capacity multiplier. -/
def effectiveLimitsClaimed (base : RateLimitConfig) (st : HealthStatus) :
    Nat × Nat :=
  ((Rat.floor ((base.maxRequestsPerMinute : Rat) * capacityMultiplier st)).toNat,
   (Rat.floor ((base.maxConcurrentRequests : Rat) * capacityMultiplier st)).toNat)

/-- A stored healthy snapshot used as the pre-state of counterexamples. -/
def healthySnapExample : SystemHealth :=
  { cpuUsage := 10
    memoryUsage := 10
    activeConnections := 1
    anomalyScore := 0
    status := HealthStatus.healthy }

/-- A health body with every optional field missing. -/
def emptyHealthBody : HealthBody :=
  { cpu_usage := none
    memory_usage := none
    active_connections := none
    anomaly_score := none }

/-- Descending-priority sortedness, what the comparator of line 185
establishes. -/
def priorityDescending (q : List QEntry) : Prop :=
  List.Pairwise (fun a b => b.priority ≤ a.priority) q

/-! ## Helper lemmas -/

/-- Mathlib's `Rat.floor` agrees with the floor of the `FloorRing`
instance. -/
theorem ratFloor_eq_intFloor (q : Rat) : Rat.floor q = ⌊q⌋ := by
  rw [Rat.floor_def', Rat.floor_def]

/-- The two floors of adjustRateLimits, evaluated at the three statuses. -/
theorem adjustRateLimits_floor_values (st : HealthStatus) :
    ((Rat.floor (60 * capacityMultiplier st)).toNat,
     (Rat.floor (5 * capacityMultiplier st)).toNat)
      = match st with
        | HealthStatus.healthy => (60, 5)
        | HealthStatus.degraded => (30, 2)
        | HealthStatus.critical => (12, 1) := by
  cases st <;> simp only [capacityMultiplier] <;>
    rw [Prod.mk.injEq, ratFloor_eq_intFloor, ratFloor_eq_intFloor] <;>
    constructor <;> norm_num [Int.toNat_ofNat]
  all_goals decide

/-! ## Claims C1 and C2: the fast path and the active-request counter -/

/-- C1: the claim states that every dispatched request, fast-path ones
included, increments activeRequests at dispatch and decrements it at
completion, keeping the number of in-flight requests at or below the
effective maxConcurrentRequests.  Evaluating the submission step of the
source at six back-to-back submissions against the default cap of five
shows the opposite: the fast path of makeRequest (lines 260-268) never
touches the counter, so all six dispatch immediately, the counter stays 0,
and six requests are in flight against a cap of five. -/
theorem fastPath_submissions_exceed_cap :
    defaultRateLimitConfig.maxConcurrentRequests = 5 ∧
    submitN 5 6 initSchedState
      = { activeRequests := 0, requestQueue := [], inFlight := 6, nextOrder := 6 } ∧
    ¬ (submitN 5 6 initSchedState).inFlight ≤ defaultRateLimitConfig.maxConcurrentRequests := by
  decide

/-- C2: the claim states that submitting maxConcurrentRequests + 1
concurrent requests leaves exactly one entry queued, and that every
completion invokes the drain routine.  Evaluating the source's submission
step shows the queue stays empty after six submissions against the default
cap of five (the active counter never reaches the cap, so no submission
takes the enqueue branch), and settling a fast-path request (line 267)
leaves counter and queue untouched - no drain runs. -/
theorem fastPath_submissions_queue_empty :
    (submitN 5 6 initSchedState).requestQueue.length = 0 ∧
    (submitN 5 6 initSchedState).requestQueue.length ≠ 1 ∧
    completeFastStep (submitN 5 6 initSchedState)
      = { activeRequests := 0, requestQueue := [], inFlight := 5, nextOrder := 6 } := by
  decide

/-! ## Claim C3: capacity policy -/

/-- C3 counterexample: the claim says every landed snapshot - those of
failed polls included - re-derives the limits as floor(base x multiplier).
A failed poll from a healthy state lands the degraded fallback snapshot,
yet the limits stay at (60, 5) instead of the (30, 2) the claim demands. -/
theorem failed_poll_keeps_limits_cex :
    (updateSystemHealth FetchResult.networkError
        { config := defaultRateLimitConfig, systemHealth := some healthySnapExample }).systemHealth
      = some degradedFallback ∧
    degradedFallback.status = HealthStatus.degraded ∧
    (updateSystemHealth FetchResult.networkError
        { config := defaultRateLimitConfig, systemHealth := some healthySnapExample }).config.maxRequestsPerMinute
      = 60 ∧
    (updateSystemHealth FetchResult.networkError
        { config := defaultRateLimitConfig, systemHealth := some healthySnapExample }).config.maxConcurrentRequests
      = 5 ∧
    effectiveLimitsClaimed defaultRateLimitConfig HealthStatus.degraded = (30, 2) ∧
    (60, 5) ≠ ((30 : Nat), (2 : Nat)) := by
  refine ⟨rfl, rfl, rfl, rfl, ?_, by decide⟩
  unfold effectiveLimitsClaimed defaultRateLimitConfig capacityMultiplier
  rw [Prod.mk.injEq, ratFloor_eq_intFloor, ratFloor_eq_intFloor]
  constructor <;> norm_num [Int.toNat_ofNat]
  all_goals decide

/-- C3 amended: only successful polls re-apply the limits, and the bases
scaled are the literals 60 and 5 of adjustRateLimits (lines 132-133), not
the construction-time configuration; the resulting caps are (60, 5), (30, 2)
and (12, 1) for healthy, degraded and critical.  A failed poll (thrown
fetch or non-2xx response) leaves the configured limits unchanged. -/
theorem adjustRateLimits_amended :
    (∀ (cfg : RateLimitConfig) (h : Option SystemHealth) (body : HealthBody),
      ((updateSystemHealth (FetchResult.response true body) ⟨cfg, h⟩).config.maxRequestsPerMinute,
       (updateSystemHealth (FetchResult.response true body) ⟨cfg, h⟩).config.maxConcurrentRequests)
        = ((Rat.floor (60 * capacityMultiplier (determineHealthStatus body))).toNat,
           (Rat.floor (5 * capacityMultiplier (determineHealthStatus body))).toNat)) ∧
    (∀ st : HealthStatus,
      ((Rat.floor (60 * capacityMultiplier st)).toNat,
       (Rat.floor (5 * capacityMultiplier st)).toNat)
        = match st with
          | HealthStatus.healthy => (60, 5)
          | HealthStatus.degraded => (30, 2)
          | HealthStatus.critical => (12, 1)) ∧
    (∀ (cfg : RateLimitConfig) (h : Option SystemHealth),
      (updateSystemHealth FetchResult.networkError ⟨cfg, h⟩).config = cfg) ∧
    (∀ (cfg : RateLimitConfig) (h : Option SystemHealth) (body : HealthBody),
      (updateSystemHealth (FetchResult.response false body) ⟨cfg, h⟩).config = cfg) := by
  refine ⟨fun cfg h body => rfl, adjustRateLimits_floor_values, fun cfg h => rfl,
    fun cfg h body => rfl⟩

/-! ## Claim C8: failed health polls -/

/-- C8 counterexample: the claim says a non-2xx health response also
replaces the stored snapshot with the degraded fallback.  In the source the
`if (response.ok)` of updateSystemHealth has no else-branch, so a non-2xx
response leaves the previous (here healthy) snapshot in place. -/
theorem non2xx_keeps_snapshot_cex :
    (updateSystemHealth (FetchResult.response false emptyHealthBody)
        { config := defaultRateLimitConfig, systemHealth := some healthySnapExample }).systemHealth
      = some healthySnapExample ∧
    healthySnapExample.status ≠ degradedFallback.status ∧
    (updateSystemHealth (FetchResult.response false emptyHealthBody)
        { config := defaultRateLimitConfig, systemHealth := some healthySnapExample }).systemHealth
      ≠ some degradedFallback := by
  refine ⟨rfl, by decide, ?_⟩
  intro h
  have h2 : healthySnapExample.status = degradedFallback.status :=
    congrArg (fun o => (Option.getD o degradedFallback).status) h
  exact absurd h2 (by decide)

/-- C8 amended: only health polls that throw (network errors, unparseable
bodies) synthesize the degraded fallback snapshot; a non-2xx response
changes nothing, leaving the previous snapshot in place. -/
theorem health_failure_fallback_amended :
    (∀ s : HealthClientState,
      (updateSystemHealth FetchResult.networkError s).systemHealth = some degradedFallback) ∧
    (∀ (s : HealthClientState) (body : HealthBody),
      updateSystemHealth (FetchResult.response false body) s = s) := by
  exact ⟨fun s => rfl, fun s body => rfl⟩

/-! ## Claim C9: no snapshot before the first poll -/

/-- C9: getSystemHealth returns null from construction until the first
health poll: the constructor stores null and only starts an interval timer,
whose first tick fires one full healthCheckInterval after construction, so
at every instant before that no poll has run and the observed snapshot is
still null. -/
theorem systemHealth_null_before_first_poll (cfg : RateLimitConfig)
    (results : Nat → FetchResult) (t : Nat) (h : t < cfg.healthCheckInterval) :
    pollTicksBy cfg t = 0 ∧
    getSystemHealth (healthStateAt cfg results t) = none := by
  have h0 : pollTicksBy cfg t = 0 := Nat.div_eq_of_lt h
  refine ⟨h0, ?_⟩
  simp [healthStateAt, h0, runPolls, getSystemHealth, initHealthClientState]

/-- Witness for C9 at the default 10-second interval, observed 5 seconds
after construction. -/
theorem systemHealth_null_before_first_poll_witness :
    5000 < defaultRateLimitConfig.healthCheckInterval ∧
    getSystemHealth (healthStateAt defaultRateLimitConfig
      (fun _ => FetchResult.networkError) 5000) = none :=
  ⟨by decide,
    (systemHealth_null_before_first_poll defaultRateLimitConfig
      (fun _ => FetchResult.networkError) 5000 (by decide)).2⟩

/-! ## Claim C5: local admission rejection -/

/-- C5: whenever the post-cleanup tracked count for the submission's
endpoint key (query string stripped, base URL applied) has reached the
current maxRequestsPerMinute, makeRequest throws the RateLimitError before
any network call; with maxRequestsPerMinute = 3 the fourth request to the
same endpoint within one second is rejected exactly this way while the
first three dispatched and were recorded. -/
theorem rateLimited_rejected_before_network :
    (∀ (cfg : RateLimitConfig) (baseUrl : String) (now : Nat)
        (st : LimiterState) (endpoint : String),
      (isRateLimited cfg now st (fullUrlOf baseUrl endpoint)).1 = true →
      (submitRequest cfg baseUrl now st endpoint).err = some rateLimitErrorJs ∧
      rateLimitErrorJs.name = "RateLimitError" ∧
      (submitRequest cfg baseUrl now st endpoint).networkCalled = false) ∧
    ((submitRequest { defaultRateLimitConfig with maxRequestsPerMinute := 3 }
        ("/api") 0 initLimiterState ("/data")).networkCalled = true ∧
     (submitRequest { defaultRateLimitConfig with maxRequestsPerMinute := 3 }
        ("/api") 100
        (submitRequest { defaultRateLimitConfig with maxRequestsPerMinute := 3 }
          ("/api") 0 initLimiterState ("/data")).limiter
        ("/data")).networkCalled = true ∧
     (submitRequest { defaultRateLimitConfig with maxRequestsPerMinute := 3 }
        ("/api") 200
        (submitRequest { defaultRateLimitConfig with maxRequestsPerMinute := 3 }
          ("/api") 100
          (submitRequest { defaultRateLimitConfig with maxRequestsPerMinute := 3 }
            ("/api") 0 initLimiterState ("/data")).limiter
          ("/data")).limiter
        ("/data")).networkCalled = true ∧
     (submitRequest { defaultRateLimitConfig with maxRequestsPerMinute := 3 }
        ("/api") 300
        (submitRequest { defaultRateLimitConfig with maxRequestsPerMinute := 3 }
          ("/api") 200
          (submitRequest { defaultRateLimitConfig with maxRequestsPerMinute := 3 }
            ("/api") 100
            (submitRequest { defaultRateLimitConfig with maxRequestsPerMinute := 3 }
              ("/api") 0 initLimiterState ("/data")).limiter
            ("/data")).limiter
          ("/data")).limiter
        ("/data")).err = some rateLimitErrorJs ∧
     (submitRequest { defaultRateLimitConfig with maxRequestsPerMinute := 3 }
        ("/api") 300
        (submitRequest { defaultRateLimitConfig with maxRequestsPerMinute := 3 }
          ("/api") 200
          (submitRequest { defaultRateLimitConfig with maxRequestsPerMinute := 3 }
            ("/api") 100
            (submitRequest { defaultRateLimitConfig with maxRequestsPerMinute := 3 }
              ("/api") 0 initLimiterState ("/data")).limiter
            ("/data")).limiter
          ("/data")).limiter
        ("/data")).networkCalled = false) := by
  constructor
  · intro cfg baseUrl now st endpoint hlim
    refine ⟨?_, rfl, ?_⟩ <;> simp only [submitRequest, hlim, if_true]
  · decide

/-- Witness for C5: the fourth submission of the scenario, applied to the
general statement - the limiter state after three recorded requests to
/api/data carries count 3, which reaches the cap of 3. -/
theorem rateLimited_rejected_before_network_witness :
    (isRateLimited { defaultRateLimitConfig with maxRequestsPerMinute := 3 } 300
        { requestCounts := [("/api/data", 3)], lastRequestTimes := [("/api/data", 200)] }
        (fullUrlOf ("/api") ("/data"))).1 = true ∧
    ((submitRequest { defaultRateLimitConfig with maxRequestsPerMinute := 3 }
        ("/api") 300
        { requestCounts := [("/api/data", 3)], lastRequestTimes := [("/api/data", 200)] }
        ("/data")).err = some rateLimitErrorJs ∧
     rateLimitErrorJs.name = "RateLimitError" ∧
     (submitRequest { defaultRateLimitConfig with maxRequestsPerMinute := 3 }
        ("/api") 300
        { requestCounts := [("/api/data", 3)], lastRequestTimes := [("/api/data", 200)] }
        ("/data")).networkCalled = false) :=
  ⟨by decide,
    rateLimited_rejected_before_network.1
      { defaultRateLimitConfig with maxRequestsPerMinute := 3 } ("/api") 300
      { requestCounts := [("/api/data", 3)], lastRequestTimes := [("/api/data", 200)] }
      ("/data") (by decide)⟩

/-! ## Claim C6: backoff on HTTP 429 -/

/-- C6 counterexample: the claim says r defaults to 1 also when the
Retry-After header is present but unparseable.  For the header value
"soon", parseInt yields NaN, NaN propagates through the multiplication,
Math.min and the addition, and backoffUntil becomes NaN (modelled none)
instead of the claimed now + min(1 x 1000 x 2, 30000) = now + 2000. -/
theorem backoff_unparseable_cex :
    parseIntJS ("soon") = none ∧
    backoffUntilCode defaultRateLimitConfig 1000 (some ("soon")) = none ∧
    backoffUntilClaimed defaultRateLimitConfig 1000 (some ("soon")) = 3000 ∧
    backoffUntilCode defaultRateLimitConfig 1000 (some ("soon"))
      ≠ some (backoffUntilClaimed defaultRateLimitConfig 1000 (some ("soon"))) := by
  decide

/-- C6 amended: on an HTTP 429, backoffUntil becomes now +
min(r x 1000 x backoffMultiplier, maxBackoffTime) where r is the
Retry-After value parsed by parseInt, and r = 1 exactly when the header is
absent or the empty string; when the header is present but unparseable the
whole computation is NaN and no valid backoff timestamp is produced. -/
theorem backoffUntil_amended (cfg : RateLimitConfig) (now : Int)
    (h : Option String) :
    (h = none →
      backoffUntilCode cfg now h
        = some (now + min (1 * 1000 * (cfg.backoffMultiplier : Int))
            (cfg.maxBackoffTime : Int))) ∧
    (∀ s : String, h = some s → s = "" →
      backoffUntilCode cfg now h
        = some (now + min (1 * 1000 * (cfg.backoffMultiplier : Int))
            (cfg.maxBackoffTime : Int))) ∧
    (∀ (s : String) (r : Int), h = some s → s ≠ "" → parseIntJS s = some r →
      backoffUntilCode cfg now h
        = some (now + min (r * 1000 * (cfg.backoffMultiplier : Int))
            (cfg.maxBackoffTime : Int))) ∧
    (∀ s : String, h = some s → s ≠ "" → parseIntJS s = none →
      backoffUntilCode cfg now h = none) := by
  refine ⟨?_, ?_, ?_, ?_⟩
  · rintro rfl
    simp [backoffUntilCode, one_mul]
  · rintro s rfl rfl
    simp [backoffUntilCode, one_mul]
  · rintro s r rfl hs hr
    simp [backoffUntilCode, hs, hr]
  · rintro s rfl hs hr
    simp [backoffUntilCode, hs, hr]

/-- Witness for C6 amended: a parseable Retry-After of 2 seconds with the
default config yields backoffUntil = now + min(2 x 1000 x 2, 30000)
= now + 4000. -/
theorem backoffUntil_amended_witness :
    parseIntJS ("2") = some 2 ∧ ("2" : String) ≠ "" ∧
    backoffUntilCode defaultRateLimitConfig 0 (some ("2"))
      = some (0 + min ((2 : Int) * 1000 * (defaultRateLimitConfig.backoffMultiplier : Int))
          (defaultRateLimitConfig.maxBackoffTime : Int)) :=
  ⟨by decide, by decide,
    (backoffUntil_amended defaultRateLimitConfig 0 (some ("2"))).2.2.1 ("2") 2 rfl
      (by decide) (by decide)⟩

/-! ## Claim C7: retry layer and the server rate-limit error -/

/-- C7: the claim says a server rate-limit (HTTP 429) failure is auto-
retried like the local RateLimitError.  Evaluating the classifier of
executeRequest at the error actually thrown on a 429 shows otherwise: its
message starts with a lowercase "rate", the case-sensitive
includes check against the capitalized pattern fails, the error is
classified as unexpected, rateLimited stays false and no retry is
scheduled - while the local RateLimitError is retried after
60 x 1000 x 2^0 ms as claimed, and HTTP-status and network errors are
never retried. -/
theorem server_rate_limit_error_not_retried :
    strIncludes serverRateLimitErrorJs.message ("rate limit exceeded") = true ∧
    strIncludes serverRateLimitErrorJs.message ("Rate limit exceeded") = false ∧
    classifyError serverRateLimitErrorJs
      = { errorMessage := "An unexpected error occurred", isRateLimited := false,
          retryAfter := 0 } ∧
    retryDecision true 3 0 (classifyError serverRateLimitErrorJs) = none ∧
    retryDecision true 3 0 (classifyError rateLimitErrorJs) = some (1, 60 * 1000 * 2 ^ 0) ∧
    retryDecision true 3 0 (classifyError (httpStatusErrorJs 500 ("Internal Server Error")))
      = none ∧
    retryDecision true 3 0 (classifyError { name := "TypeError", message := "Failed to fetch" })
      = none := by
  decide

/-! ## Claim C10: the hook never rejects -/

/-- C10: executeRequest resolves with the parsed data on success and with
null on every failure, surfacing the failure only through the hook state:
the classified message lands in error, the rate-limited classification in
rateLimited and retryAfter, and loading is cleared either way. -/
theorem executeRequest_resolves_null_on_failure :
    (∀ (α : Type) (e : JsError) (prev : UseApiState α),
      (executeRequestStep (Except.error e) prev).1 = none ∧
      (executeRequestStep (Except.error e) prev).2.error
        = some (classifyError e).errorMessage ∧
      (executeRequestStep (Except.error e) prev).2.rateLimited
        = (classifyError e).isRateLimited ∧
      (executeRequestStep (Except.error e) prev).2.retryAfter
        = (classifyError e).retryAfter ∧
      (executeRequestStep (Except.error e) prev).2.loading = false ∧
      (executeRequestStep (Except.error e) prev).2.data = prev.data) ∧
    (∀ (α : Type) (r : ApiResponse α) (prev : UseApiState α),
      (executeRequestStep (Except.ok r) prev).1 = some r.data ∧
      (executeRequestStep (Except.ok r) prev).2.data = some r.data ∧
      (executeRequestStep (Except.ok r) prev).2.error = none ∧
      (executeRequestStep (Except.ok r) prev).2.rateLimited = false ∧
      (executeRequestStep (Except.ok r) prev).2.loading = false) := by
  exact ⟨fun α e prev => ⟨rfl, rfl, rfl, rfl, rfl, rfl⟩,
    fun α r prev => ⟨rfl, rfl, rfl, rfl, rfl⟩⟩

/-! ## Claim C4: the drain routine dispatches by priority, FIFO for ties -/

/-- Membership through stable insertion. -/
theorem mem_insertDesc {e a : QEntry} {l : List QEntry} :
    a ∈ insertDesc e l ↔ a = e ∨ a ∈ l := by
  induction l with
  | nil => simp [insertDesc]
  | cons x xs ih =>
    simp only [insertDesc]
    split
    · simp [List.mem_cons]
    · simp only [List.mem_cons, ih]
      tauto

/-- Insertion grows the length by one. -/
theorem length_insertDesc (e : QEntry) (l : List QEntry) :
    (insertDesc e l).length = l.length + 1 := by
  induction l with
  | nil => rfl
  | cons x xs ih =>
    simp only [insertDesc]
    split <;> simp [ih]

/-- Sorting preserves the length (the sort of line 185 permutes the
queue). -/
theorem length_sortByPriority (l : List QEntry) :
    (sortByPriority l).length = l.length := by
  induction l with
  | nil => rfl
  | cons x xs ih => simp [sortByPriority, length_insertDesc, ih]

/-- Sorting preserves membership. -/
theorem mem_sortByPriority {a : QEntry} {l : List QEntry} :
    a ∈ sortByPriority l ↔ a ∈ l := by
  induction l with
  | nil => simp [sortByPriority]
  | cons x xs ih => simp [sortByPriority, mem_insertDesc, ih]

/-- Insertion into a descending-priority list keeps it descending. -/
theorem sorted_insertDesc {e : QEntry} {l : List QEntry}
    (h : List.Pairwise (fun a b => b.priority ≤ a.priority) l) :
    List.Pairwise (fun a b => b.priority ≤ a.priority) (insertDesc e l) := by
  induction l with
  | nil => simp [insertDesc]
  | cons x xs ih =>
    rcases List.pairwise_cons.1 h with ⟨hx, hxs⟩
    simp only [insertDesc]
    split
    · rename_i hle
      refine List.pairwise_cons.2 ⟨?_, h⟩
      intro b hb
      rcases List.mem_cons.1 hb with rfl | hbxs
      · exact hle
      · exact le_trans (hx b hbxs) hle
    · rename_i hgt
      refine List.pairwise_cons.2 ⟨?_, ih hxs⟩
      intro b hb
      rcases mem_insertDesc.1 hb with rfl | hbxs
      · exact le_of_not_le hgt
      · exact hx b hbxs

/-- The sort of line 185 yields a descending-priority list. -/
theorem sorted_sortByPriority (l : List QEntry) :
    List.Pairwise (fun a b => b.priority ≤ a.priority) (sortByPriority l) := by
  induction l with
  | nil => exact List.Pairwise.nil
  | cons x xs ih => exact sorted_insertDesc ih

/-- Stability: inserting an entry that ranks after every equal-priority
entry of the list preserves the FIFO tie invariant. -/
theorem tieOrdered_insertDesc {e : QEntry} {l : List QEntry}
    (h : queueTieOrdered l)
    (he : ∀ x ∈ l, x.priority = e.priority → e.order < x.order) :
    queueTieOrdered (insertDesc e l) := by
  induction l with
  | nil => simp [insertDesc, queueTieOrdered]
  | cons x xs ih =>
    rcases List.pairwise_cons.1 h with ⟨hx, hxs⟩
    simp only [insertDesc]
    split
    · refine List.pairwise_cons.2 ⟨?_, h⟩
      intro b hb hpe
      exact he b hb hpe.symm
    · rename_i hgt
      refine List.pairwise_cons.2 ⟨?_, ih hxs ?_⟩
      · intro b hb
        rcases mem_insertDesc.1 hb with rfl | hbxs
        · intro hpx
          exact absurd (le_of_eq hpx) hgt
        · exact hx b hbxs
      · intro y hy hpy
        exact he y (List.mem_cons_of_mem x hy) hpy

/-- The stable sort preserves the FIFO tie invariant. -/
theorem tieOrdered_sortByPriority {l : List QEntry} (h : queueTieOrdered l) :
    queueTieOrdered (sortByPriority l) := by
  induction l with
  | nil => exact List.Pairwise.nil
  | cons x xs ih =>
    rcases List.pairwise_cons.1 h with ⟨hx, hxs⟩
    exact tieOrdered_insertDesc (ih hxs)
      (fun y hy hpy => hx y (mem_sortByPriority.1 hy) hpy.symm)

/-- C4: whenever processQueue dispatches from a non-empty queue with a free
slot, the dispatched entry (the head of the sorted queue) has maximal
priority, and the smallest submission number among entries of its priority;
for entries queued with priorities 1, 5, 1 in that submission order, the
dispatch order is the priority-5 entry first, then the two priority-1
entries in submission order. -/
theorem processQueue_dispatch_max_priority :
    (∀ (cap : Nat) (s : SchedState), queueTieOrdered s.requestQueue →
      s.requestQueue ≠ [] → s.activeRequests < cap →
      ∃ d s2, processQueueStep cap s = (some d, s2) ∧
        d ∈ s.requestQueue ∧
        (∀ e ∈ s.requestQueue, e.priority ≤ d.priority) ∧
        (∀ e ∈ s.requestQueue, e.priority = d.priority → e ≠ d → d.order < e.order) ∧
        s2.activeRequests = s.activeRequests + 1 ∧
        s2.requestQueue.length + 1 = s.requestQueue.length) ∧
    drainOrder [⟨1, 0⟩, ⟨5, 1⟩, ⟨1, 2⟩] = [⟨5, 1⟩, ⟨1, 0⟩, ⟨1, 2⟩] := by
  constructor
  · intro cap s hinv hne hcap
    have hlen : ¬ (s.requestQueue.length = 0 ∨ cap ≤ s.activeRequests) := by
      push_neg
      exact ⟨fun h0 => hne (List.length_eq_zero.1 h0), hcap⟩
    cases hsort : sortByPriority s.requestQueue with
    | nil =>
      exfalso
      apply hne
      have hl := length_sortByPriority s.requestQueue
      rw [hsort] at hl
      exact List.length_eq_zero.1 hl.symm
    | cons d rest =>
      have hmemsort : ∀ e ∈ s.requestQueue, e ∈ d :: rest := by
        intro e he_
        rw [← hsort]
        exact mem_sortByPriority.2 he_
      have hsorted :
          List.Pairwise (fun a b => b.priority ≤ a.priority) (d :: rest) := by
        rw [← hsort]
        exact sorted_sortByPriority s.requestQueue
      have htie :
          List.Pairwise (fun a b => a.priority = b.priority → a.order < b.order)
            (d :: rest) := by
        rw [← hsort]
        exact tieOrdered_sortByPriority hinv
      refine ⟨d,
        { s with requestQueue := rest,
                 activeRequests := s.activeRequests + 1,
                 inFlight := s.inFlight + 1 }, ?_, ?_, ?_, ?_, rfl, ?_⟩
      · simp only [processQueueStep, if_neg hlen, hsort]
      · exact mem_sortByPriority.1 (by rw [hsort]; exact List.mem_cons_self d rest)
      · intro e he_
        rcases List.mem_cons.1 (hmemsort e he_) with rfl | hr
        · exact le_refl _
        · exact (List.pairwise_cons.1 hsorted).1 e hr
      · intro e he_ hpe hne2
        rcases List.mem_cons.1 (hmemsort e he_) with rfl | hr
        · exact absurd rfl hne2
        · exact (List.pairwise_cons.1 htie).1 e hr hpe.symm
      · have hl := length_sortByPriority s.requestQueue
        rw [hsort] at hl
        simpa using hl
  · decide

/-- Witness for C4: dispatching from the queue built by submissions with
priorities 1, 5, 1 while a slot is free picks the priority-5 entry. -/
theorem processQueue_dispatch_max_priority_witness :
    ∃ d s2,
      processQueueStep 5
        { activeRequests := 0,
          requestQueue := [⟨1, 0⟩, ⟨5, 1⟩, ⟨1, 2⟩],
          inFlight := 0, nextOrder := 3 } = (some d, s2) ∧
      d ∈ ([⟨1, 0⟩, ⟨5, 1⟩, ⟨1, 2⟩] : List QEntry) ∧
      (∀ e ∈ ([⟨1, 0⟩, ⟨5, 1⟩, ⟨1, 2⟩] : List QEntry), e.priority ≤ d.priority) ∧
      (∀ e ∈ ([⟨1, 0⟩, ⟨5, 1⟩, ⟨1, 2⟩] : List QEntry),
        e.priority = d.priority → e ≠ d → d.order < e.order) ∧
      s2.activeRequests = 0 + 1 ∧
      s2.requestQueue.length + 1 = ([⟨1, 0⟩, ⟨5, 1⟩, ⟨1, 2⟩] : List QEntry).length :=
  processQueue_dispatch_max_priority.1 5
    { activeRequests := 0, requestQueue := [⟨1, 0⟩, ⟨5, 1⟩, ⟨1, 2⟩],
      inFlight := 0, nextOrder := 3 }
    (by unfold queueTieOrdered; decide) (by decide) (by decide)
